import Mathlib

/-!
Shallow embedding of the notion-mcp repository (a Notion MCP server):
the Notion API client (`src/notion/client.ts`) and the tool registry /
adapter (`src/notion/tools.ts`, `src/index.ts`), together with proofs of
the specification's testable properties.

Strings are modelled with Lean `String` (a wrapper around `List Char`);
JavaScript character classes are modelled by decidable predicates on the
character's code point.
-/

/-- Character class of the JavaScript regex `\s` (and of `String.prototype.trim`):
tab (9), line feed (10), vertical tab (11), form feed (12), carriage return (13),
space (32), no-break space (160), ogham space (0x1680), the en-quad .. hair-space
range (0x2000-0x200a), line separator (0x2028), paragraph separator (0x2029),
narrow no-break space (0x202f), medium mathematical space (0x205f), ideographic
space (0x3000) and the byte-order mark (0xfeff). -/
def isWsChar (c : Char) : Bool :=
  (9 ≤ c.toNat && c.toNat ≤ 13) || c.toNat = 32 || c.toNat = 160 || c.toNat = 0x1680 ||
  (0x2000 ≤ c.toNat && c.toNat ≤ 0x200a) || c.toNat = 0x2028 || c.toNat = 0x2029 ||
  c.toNat = 0x202f || c.toNat = 0x205f || c.toNat = 0x3000 || c.toNat = 0xfeff

/-- Character class of the regex `['"]` in `validateUUID`: an apostrophe (39)
or a double quote (34). -/
def isQuoteChar (c : Char) : Bool :=
  c.toNat = 39 || c.toNat = 34

/-- The dash character (code 45), removed by the dash-stripping `replace` call. -/
def isDashChar (c : Char) : Bool :=
  c.toNat = 45

/-- Character class of the regex `[0-9a-f]` under the case-insensitive flag `i`
in `validateUUID`: a decimal digit (48-57), a lowercase hex letter a-f (97-102)
or an uppercase hex letter A-F (65-70). -/
def isHexChar (c : Char) : Bool :=
  (48 ≤ c.toNat && c.toNat ≤ 57) || (97 ≤ c.toNat && c.toNat ≤ 102) ||
  (65 ≤ c.toNat && c.toNat ≤ 70)

/-- `String.prototype.trim`: drop JavaScript whitespace from both ends. -/
def jsTrim (l : List Char) : List Char :=
  ((l.dropWhile isWsChar).reverse.dropWhile isWsChar).reverse

/-- `.replace(/['"]/g, '')`: remove every quote character. -/
def stripQuotes (l : List Char) : List Char :=
  l.filter (fun c => !isQuoteChar c)

/-- `.replace(/\s/g, '')`: remove every whitespace character. -/
def stripWs (l : List Char) : List Char :=
  l.filter (fun c => !isWsChar c)

/-- The dash-stripping `replace` call: remove every dash. -/
def stripDashes (l : List Char) : List Char :=
  l.filter (fun c => !isDashChar c)

/-- The reassigned `uuid` in `validateUUID` after
`uuid.trim().replace(/['"]/g, '').replace(/\s/g, '')`. -/
def preClean (l : List Char) : List Char :=
  stripWs (stripQuotes (jsTrim l))

/-- The `cleanUuid` local of `validateUUID`: the input trimmed, with quotes,
whitespace and dashes removed. -/
def cleanHex (l : List Char) : List Char :=
  stripDashes (preClean l)

/-- The template-literal return value of `validateUUID`:
`slice(0,8)-slice(8,12)-slice(12,16)-slice(16,20)-slice(20)`. -/
def formatUUID (h : List Char) : List Char :=
  h.take 8 ++ ['-'] ++ (h.drop 8).take 4 ++ ['-'] ++ (h.drop 12).take 4 ++ ['-'] ++
    (h.drop 16).take 4 ++ ['-'] ++ h.drop 20

/-- `NotionClient.validateUUID` (src/notion/client.ts lines 112-130).
Throwing is modelled with `Except.error` carrying the message string. -/
def validateUUID (uuid : String) : Except String String :=
  if uuid = "" then
    .error "Notion ID cannot be empty"
  else if (cleanHex uuid.data).length == 32 && (cleanHex uuid.data).all isHexChar then
    .ok (String.mk (formatUUID (cleanHex uuid.data)))
  else
    .error ("Invalid Notion ID format: " ++ String.mk (preClean uuid.data) ++
      ". Expected a 32-character hexadecimal string.")

/-- `needle` occurs at the start of `hay`. -/
def startsWithSeq : List Char → List Char → Bool
  | _, [] => true
  | [], _ :: _ => false
  | h :: hs, n :: ns => h = n && startsWithSeq hs ns

/-- `needle` occurs contiguously somewhere inside `hay`; used to state that an
error message names a given string. -/
def hasSeq : List Char → List Char → Bool
  | [], needle => startsWithSeq [] needle
  | h :: t, needle => startsWithSeq (h :: t) needle || hasSeq t needle

/-- What the specification asserts `validateUUID` returns: the stripped hex
characters lowercased and then dash-grouped 8-4-4-4-12. -/
def specCanonicalUUID (s : String) : String :=
  String.mk (formatUUID ((cleanHex s.data).map Char.toLower))

-- Sanity checks of the embedding on concrete inputs.
example : validateUUID "12345678123456781234567812345678" =
    .ok "12345678-1234-5678-1234-567812345678" := by rfl
example : validateUUID " \x22DeadBEEF-dead-beef-dead-beefdeadbeef\x22 " =
    .ok "DeadBEEF-dead-beef-dead-beefdeadbeef" := by rfl
example : validateUUID "zz" =
    .error "Invalid Notion ID format: zz. Expected a 32-character hexadecimal string." := by rfl
example : validateUUID "" = .error "Notion ID cannot be empty" := by rfl
example : hasSeq "abcdef".data "cde".data = true := by rfl
example : hasSeq "abcdef".data "cdf".data = false := by rfl

/-!
JSON values built by the adapter for request bodies. Objects are association
lists in insertion order; JavaScript truthiness is modelled by `jsTruthy`.
-/

inductive Json where
  | null
  | bool (b : Bool)
  | num (n : Int)
  | str (s : String)
  | arr (xs : List Json)
  | obj (fields : List (String × Json))
deriving Repr

/-- JavaScript truthiness of a JSON value: `null`, `false`, `0` and the empty
string are falsy; every array and object is truthy. -/
def jsTruthy : Json → Bool
  | .null => false
  | .bool b => b
  | .num n => n != 0
  | .str s => s != ""
  | .arr _ => true
  | .obj _ => true

/-- Truthiness of a JavaScript property access that may yield `undefined`. -/
def truthyOpt : Option Json → Bool
  | none => false
  | some j => jsTruthy j

/-- JavaScript property read `o[k]` on an object modelled as an association
list: the first binding wins, a missing key is `undefined` (`none`). -/
def getProp : List (String × Json) → String → Option Json
  | [], _ => none
  | (k₂, v) :: rest, k => if k₂ = k then some v else getProp rest k

/-- JavaScript property write `o[k] = v`: replace the first binding of the key
in place if present (JavaScript objects have unique keys), append it
otherwise. -/
def setProp : List (String × Json) → String → Json → List (String × Json)
  | [], k, v => [(k, v)]
  | (ka, va) :: rest, k, v =>
    if ka = k then (k, v) :: rest else (ka, va) :: setProp rest k v

/-- The rich-text item `{type: 'text', text: {content: s}}` that the adapter
builds for titles, paragraph blocks and comments. -/
def textRichItem (s : String) : Json :=
  Json.obj [("type", Json.str "text"), ("text", Json.obj [("content", Json.str s)])]

/-- The paragraph block the adapter builds around plain-text content:
`{object: 'block', type: 'paragraph', paragraph: {rich_text: [textRichItem c]}}`. -/
def paragraphBlock (c : String) : Json :=
  Json.obj [("object", Json.str "block"), ("type", Json.str "paragraph"),
    ("paragraph", Json.obj [("rich_text", Json.arr [textRichItem c])])]

/-- An outbound HTTP request as assembled by `NotionClient.request`:
method, endpoint path and optional JSON body. -/
structure Request where
  method : String
  path : String
  body : Option Json
deriving Repr

/-- The `parent.type` discriminator of `createPage`. -/
inductive ParentType where
  | page_id
  | database_id
deriving Repr, DecidableEq

/-- The JSON key written for a parent of the given type. -/
def ParentType.key : ParentType → String
  | .page_id => "page_id"
  | .database_id => "database_id"

/-- The search parameter object accepted by `NotionClient.search`; `none`
models an absent (`undefined`) field, dropped from the serialized body. -/
structure SearchFilterParam where
  property : String
  value : String
deriving Repr

structure SearchSortParam where
  timestamp : String
  direction : String
deriving Repr

structure SearchParams where
  query : Option String
  filter : Option SearchFilterParam
  sort : Option SearchSortParam
  start_cursor : Option String
  page_size : Option Nat
deriving Repr

/-- Serialization of `SearchParams` as `JSON.stringify` performs it on the
handler-built object: `undefined` fields are dropped. Field order is fixed by
the embedding. -/
def searchParamsToJson (p : SearchParams) : Json :=
  Json.obj
    ((match p.query with | some q => [("query", Json.str q)] | none => []) ++
     (match p.filter with
      | some f => [("filter", Json.obj [("property", Json.str f.property), ("value", Json.str f.value)])]
      | none => []) ++
     (match p.sort with
      | some s => [("sort", Json.obj [("timestamp", Json.str s.timestamp), ("direction", Json.str s.direction)])]
      | none => []) ++
     (match p.start_cursor with | some c => [("start_cursor", Json.str c)] | none => []) ++
     (match p.page_size with | some n => [("page_size", Json.num n)] | none => []))

namespace NotionClient

/-- `GET /v1/users/me` (`getMe`). -/
def getMe : Except String Request :=
  .ok { method := "GET", path := "/v1/users/me", body := none }

/-- `listUsers`: query string built by `URLSearchParams` (percent-encoding of
cursor values is elided; no claim inspects this path). The TypeScript default
parameter `pageSize = 100` applies when the argument is `undefined`, and a
zero page size is falsy and therefore omitted. -/
def listUsers (startCursor : Option String) (pageSize : Option Nat) : Except String Request :=
  let ps := pageSize.getD 100
  let q := (match startCursor with | some c => "start_cursor=" ++ c ++ "&" | none => "") ++
    (if ps != 0 then "page_size=" ++ toString ps else "")
  .ok { method := "GET", path := "/v1/users" ++ (if q != "" then "?" ++ q else ""), body := none }

/-- `GET /v1/users/:id` (`getUser`); no identifier validation in the source. -/
def getUser (userId : String) : Except String Request :=
  .ok { method := "GET", path := "/v1/users/" ++ userId, body := none }

/-- `POST /v1/search` (`search`). -/
def search (params : SearchParams) : Except String Request :=
  .ok { method := "POST", path := "/v1/search", body := some (searchParamsToJson params) }

/-- `getPage`: validates the page identifier, then `GET /v1/pages/:id`. -/
def getPage (pageId : String) : Except String Request :=
  (validateUUID pageId).map fun pid =>
    { method := "GET", path := "/v1/pages/" ++ pid, body := none }

/-- `createPage`: validates the parent identifier (for both parent types),
then `POST /v1/pages` with the parent, properties and optional children,
icon and cover. -/
def createPage (parentType : ParentType) (parentId : String)
    (properties : List (String × Json)) (children : Option (List Json))
    (icon cover : Option Json) : Except String Request :=
  (validateUUID parentId).map fun pid =>
    { method := "POST", path := "/v1/pages",
      body := some (Json.obj
        ([("parent", Json.obj [("type", Json.str parentType.key), (parentType.key, Json.str pid)]),
          ("properties", Json.obj properties)] ++
         (match children with | some cs => [("children", Json.arr cs)] | none => []) ++
         (match icon with | some i => [("icon", i)] | none => []) ++
         (match cover with | some c => [("cover", c)] | none => []))) }

/-- `updatePage`: validates the page identifier, then `PATCH /v1/pages/:id`
with the caller's params object passed through. -/
def updatePage (pageId : String) (params : Json) : Except String Request :=
  (validateUUID pageId).map fun pid =>
    { method := "PATCH", path := "/v1/pages/" ++ pid, body := some params }

/-- `getDatabase`: `GET /v1/databases/:id`; the source performs no identifier
validation here. -/
def getDatabase (databaseId : String) : Except String Request :=
  .ok { method := "GET", path := "/v1/databases/" ++ databaseId, body := none }

/-- `createDatabase`: `POST /v1/databases`; no identifier validation of the
parent page in the source. -/
def createDatabase (parentPageId : String) (title : List Json)
    (properties : List (String × Json)) : Except String Request :=
  .ok { method := "POST", path := "/v1/databases",
        body := some (Json.obj
          [("parent", Json.obj [("type", Json.str "page_id"), ("page_id", Json.str parentPageId)]),
           ("title", Json.arr title), ("properties", Json.obj properties)]) }

/-- `queryDatabase`: `POST /v1/databases/:id/query`; no identifier validation
in the source. -/
def queryDatabase (databaseId : String) (params : Option Json) : Except String Request :=
  .ok { method := "POST", path := "/v1/databases/" ++ databaseId ++ "/query", body := params }

/-- `getBlock`: `GET /v1/blocks/:id`; no identifier validation in the source. -/
def getBlock (blockId : String) : Except String Request :=
  .ok { method := "GET", path := "/v1/blocks/" ++ blockId, body := none }

/-- `getBlockChildren`: validates the block identifier, then
`GET /v1/blocks/:id/children` with the params object passed as body
(as the source does). -/
def getBlockChildren (blockId : String) (params : Option Json) : Except String Request :=
  (validateUUID blockId).map fun bid =>
    { method := "GET", path := "/v1/blocks/" ++ bid ++ "/children", body := params }

/-- `appendBlockChildren`: `PATCH /v1/blocks/:id/children` with body
`{children}`; the source performs no identifier validation here. -/
def appendBlockChildren (blockId : String) (children : List Json) : Except String Request :=
  .ok { method := "PATCH", path := "/v1/blocks/" ++ blockId ++ "/children",
        body := some (Json.obj [("children", Json.arr children)]) }

/-- `getComments`: `GET /v1/comments?...`; query string per `URLSearchParams`
insertion order (percent-encoding elided), no identifier validation. -/
def getComments (blockId : String) (startCursor : Option String) (pageSize : Option Nat) :
    Except String Request :=
  let ps := pageSize.getD 100
  let q := "block_id=" ++ blockId ++
    (match startCursor with | some c => "&start_cursor=" ++ c | none => "") ++
    (if ps != 0 then "&page_size=" ++ toString ps else "")
  .ok { method := "GET", path := "/v1/comments?" ++ q, body := none }

/-- `createComment`: `POST /v1/comments`; no identifier validation of the
parent in the source. -/
def createComment (parent : Json) (richText : List Json) (discussionId : Option String) :
    Except String Request :=
  .ok { method := "POST", path := "/v1/comments",
        body := some (Json.obj
          ([("parent", parent), ("rich_text", Json.arr richText)] ++
           (match discussionId with | some d => [("discussion_id", Json.str d)] | none => []))) }

end NotionClient

/-!
Tool registry / adapter (`src/notion/tools.ts`). Each handler is split into
pure reshaping functions (flat tool parameters to the client's call shape)
and a result-formatting function from the client outcome; an `Except.error`
outcome stands for any exception thrown by the client call. All handler
functions are total: the tool boundary never throws.
-/

/-- One entry of an MCP tool result's `content` array: `{type, text}`. -/
structure ContentItem where
  type : String
  text : String
deriving Repr, DecidableEq

/-- An MCP tool result: `{content: [...]}`. -/
structure ToolResult where
  content : List ContentItem
deriving Repr, DecidableEq

/-- A successful tool result wrapping a serialized payload,
`{content: [{type: 'text', text}]}`. -/
def textResult (text : String) : ToolResult :=
  { content := [{ type := "text", text := text }] }

/-- The parsed search response used by `get-all-pages`
(`NotionResponse.SearchResults`): the result entries are opaque to the
adapter and kept as pre-serialized strings. -/
structure SearchResults where
  results : List String
  next_cursor : Option String
  has_more : Bool
deriving Repr

/-- Serialization of a search response, modelling `JSON.stringify(results, null, 2)`
up to insignificant whitespace. -/
def serializeSearchResults (r : SearchResults) : String :=
  "\x7b\x22object\x22: \x22list\x22, \x22results\x22: [" ++
    String.intercalate ", " r.results ++ "], \x22next_cursor\x22: " ++
    (match r.next_cursor with | some c => "\x22" ++ c ++ "\x22" | none => "null") ++
    ", \x22has_more\x22: " ++ (cond r.has_more "true" "false") ++ "\x7d"

/-- `get-current-user` handler outcome formatting. -/
def getCurrentUserTool (outcome : Except String String) : ToolResult :=
  match outcome with
  | .ok payload => textResult payload
  | .error e => textResult ("Error fetching current user: " ++ e)

/-- `list-users` handler outcome formatting. -/
def listUsersTool (outcome : Except String String) : ToolResult :=
  match outcome with
  | .ok payload => textResult payload
  | .error e => textResult ("Error listing users: " ++ e)

/-- The `searchParams` object built by the `search` tool handler from its flat
arguments: each `if (x)` guard drops both absent and falsy values, the filter
is wrapped as `{property: 'object', value: filter}`, and the sort direction
falls back to `'descending'` when `sortDirection` is falsy. -/
def buildSearchParams (query : Option String) (filter : Option String)
    (sort : Option String) (sortDirection : Option String)
    (pageSize : Option Nat) (startCursor : Option String) : SearchParams :=
  { query := match query with
      | some q => if q != "" then some q else none
      | none => none,
    start_cursor := match startCursor with
      | some c => if c != "" then some c else none
      | none => none,
    page_size := match pageSize with
      | some n => if n != 0 then some n else none
      | none => none,
    filter := match filter with
      | some f => if f != "" then some { property := "object", value := f } else none
      | none => none,
    sort := match sort with
      | some s =>
        if s != "" then
          some { timestamp := s,
                 direction := match sortDirection with
                   | some d => if d != "" then d else "descending"
                   | none => "descending" }
        else none
      | none => none }

/-- `search` handler outcome formatting. -/
def searchTool (outcome : Except String String) : ToolResult :=
  match outcome with
  | .ok payload => textResult payload
  | .error e => textResult ("Error searching Notion: " ++ e)

/-- `get-page` handler outcome formatting. -/
def getPageTool (outcome : Except String String) : ToolResult :=
  match outcome with
  | .ok payload => textResult payload
  | .error e => textResult ("Error retrieving page: " ++ e)

/-- The `pageProperties` object built by the `create-page` handler: for a
database parent, the caller's properties (or `{}`), with a `Name` title
property synthesized from `title` when `title` is truthy and the `Name`
entry is absent or falsy; for a page parent, always `{title: [...]}`. -/
def createPageProperties (parentType : ParentType) (title : String)
    (properties : Option (List (String × Json))) : List (String × Json) :=
  match parentType with
  | .database_id =>
    let pageProperties := properties.getD []
    if title != "" && !truthyOpt (getProp pageProperties "Name") then
      setProp pageProperties "Name"
        (Json.obj [("title", Json.arr [textRichItem title])])
    else
      pageProperties
  | .page_id => [("title", Json.arr [textRichItem title])]

/-- The `children` array built by the `create-page` handler: a single
paragraph block when `content` is truthy, absent otherwise. -/
def createPageChildren (content : Option String) : Option (List Json) :=
  match content with
  | some c => if c != "" then some [paragraphBlock c] else none
  | none => none

/-- `create-page` handler outcome formatting. -/
def createPageTool (outcome : Except String String) : ToolResult :=
  match outcome with
  | .ok payload => textResult payload
  | .error e => textResult ("Error creating page: " ++ e)

/-- `get-database` handler outcome formatting. -/
def getDatabaseTool (outcome : Except String String) : ToolResult :=
  match outcome with
  | .ok payload => textResult payload
  | .error e => textResult ("Error retrieving database: " ++ e)

/-- The `dbProperties` object built by the `create-database` handler: the
caller's schema, or a default single `Name` title column when omitted
(an empty object argument is falsy-free: objects are always truthy). -/
def createDatabaseProperties (properties : Option (List (String × Json))) :
    List (String × Json) :=
  match properties with
  | some p => p
  | none => [("Name", Json.obj [("title", Json.obj [])])]

/-- `create-database` handler outcome formatting. -/
def createDatabaseTool (outcome : Except String String) : ToolResult :=
  match outcome with
  | .ok payload => textResult payload
  | .error e => textResult ("Error creating database: " ++ e)

/-- `query-database` handler outcome formatting. -/
def queryDatabaseTool (outcome : Except String String) : ToolResult :=
  match outcome with
  | .ok payload => textResult payload
  | .error e => textResult ("Error querying database: " ++ e)

/-- `get-block-children` handler outcome formatting. -/
def getBlockChildrenTool (outcome : Except String String) : ToolResult :=
  match outcome with
  | .ok payload => textResult payload
  | .error e => textResult ("Error retrieving block children: " ++ e)

/-- The children array built by the `append-block-children` handler: always
exactly one paragraph block wrapping the plain-text `content`. -/
def appendBlockChildrenArgs (content : String) : List Json :=
  [paragraphBlock content]

/-- The full request produced by the `append-block-children` tool: reshape the
flat arguments and call `NotionClient.appendBlockChildren`. -/
def appendBlockChildrenToolRequest (blockId content : String) : Except String Request :=
  NotionClient.appendBlockChildren blockId (appendBlockChildrenArgs content)

/-- `append-block-children` handler outcome formatting. -/
def appendBlockChildrenTool (outcome : Except String String) : ToolResult :=
  match outcome with
  | .ok payload => textResult payload
  | .error e => textResult ("Error appending blocks: " ++ e)

/-- `get-comments` handler outcome formatting. -/
def getCommentsTool (outcome : Except String String) : ToolResult :=
  match outcome with
  | .ok payload => textResult payload
  | .error e => textResult ("Error retrieving comments: " ++ e)

/-- `create-comment` handler outcome formatting. -/
def createCommentTool (outcome : Except String String) : ToolResult :=
  match outcome with
  | .ok payload => textResult payload
  | .error e => textResult ("Error creating comment: " ++ e)

/-- The search parameters issued by the `get-all-pages` tool: filter fixed to
`{value: 'page', property: 'object'}`, page size defaulting to 100 via the
destructuring default, the cursor passed through, and no text query. -/
def getAllPagesSearchParams (startCursor : Option String) (pageSize : Option Nat) :
    SearchParams :=
  { query := none,
    filter := some { property := "object", value := "page" },
    sort := none,
    start_cursor := startCursor,
    page_size := some (pageSize.getD 100) }

/-- `get-all-pages` handler outcome formatting: a count summary and a
more-pages note ahead of the serialized payload. -/
def getAllPagesTool (outcome : Except String SearchResults) : ToolResult :=
  match outcome with
  | .ok results =>
    textResult ("Found " ++ toString results.results.length ++ " pages. " ++
      (if results.has_more then "More pages available." else "No more pages available.") ++
      "\n\n" ++ serializeSearchResults results)
  | .error e => textResult ("Error retrieving pages: " ++ e)

/-- `registerNotionTools` (src/notion/tools.ts): the list of host-visible tool
names registered for a given enablement configuration. A tool is registered
when its guard `toolConfig[name] !== false` holds; an absent entry is
`undefined` and therefore passes the guard. -/
def registerNotionTools (cfg : String → Option Bool) : List String :=
  (if cfg "get-current-user" ≠ some false then ["get-current-user"] else []) ++
  (if cfg "list-users" ≠ some false then ["list-users"] else []) ++
  (if cfg "search" ≠ some false then ["search"] else []) ++
  (if cfg "get-page" ≠ some false then ["get-page"] else []) ++
  (if cfg "create-page" ≠ some false then ["create-page"] else []) ++
  (if cfg "get-database" ≠ some false then ["get-database"] else []) ++
  (if cfg "create-database" ≠ some false then ["create-database"] else []) ++
  (if cfg "query-database" ≠ some false then ["query-database"] else []) ++
  (if cfg "get-block-children" ≠ some false then ["get-block-children"] else []) ++
  (if cfg "append-block-children" ≠ some false then ["append-block-children"] else []) ++
  (if cfg "get-comments" ≠ some false then ["get-comments"] else []) ++
  (if cfg "create-comment" ≠ some false then ["create-comment"] else []) ++
  (if cfg "get-all-pages" ≠ some false then ["get-all-pages"] else [])

/-- The thirteen tool names declared in `registerNotionTools`. -/
def notionToolNames : List String :=
  ["get-current-user", "list-users", "search", "get-page", "create-page",
   "get-database", "create-database", "query-database", "get-block-children",
   "append-block-children", "get-comments", "create-comment", "get-all-pages"]

-- Sanity checks of the adapter embedding.
example : createPageProperties .database_id "Foo" none =
    [("Name", Json.obj [("title", Json.arr [textRichItem "Foo"])])] := by rfl
example : createPageProperties .database_id "" none = [] := by rfl
example : registerNotionTools (fun _ => none) = notionToolNames := by rfl
example : registerNotionTools (fun n => if n = "search" then some false else none) =
    notionToolNames.erase "search" := by rfl

/-!
Supporting lemmas about the identifier-validation pipeline.
-/

lemma isHexChar_iff (c : Char) : isHexChar c = true ↔
    (48 ≤ c.toNat ∧ c.toNat ≤ 57) ∨ (97 ≤ c.toNat ∧ c.toNat ≤ 102) ∨
    (65 ≤ c.toNat ∧ c.toNat ≤ 70) := by
  simp [isHexChar, or_assoc]

lemma hex_not_ws {c : Char} (h : isHexChar c = true) : isWsChar c = false := by
  rw [isHexChar_iff] at h
  simp only [isWsChar, Bool.or_eq_false_iff, Bool.and_eq_false_iff,
    decide_eq_false_iff_not, not_le]
  omega

lemma hex_not_quote {c : Char} (h : isHexChar c = true) : isQuoteChar c = false := by
  rw [isHexChar_iff] at h
  simp only [isQuoteChar, Bool.or_eq_false_iff, decide_eq_false_iff_not]
  omega

lemma hex_not_dash {c : Char} (h : isHexChar c = true) : isDashChar c = false := by
  rw [isHexChar_iff] at h
  simp only [isDashChar, decide_eq_false_iff_not]
  omega

lemma dash_not_ws : isWsChar '-' = false := by decide

lemma dash_not_quote : isQuoteChar '-' = false := by decide

lemma dropWhile_all_false {p : Char → Bool} {l : List Char}
    (h : ∀ c ∈ l, p c = false) : l.dropWhile p = l := by
  cases l with
  | nil => rfl
  | cons a t => simp [List.dropWhile_cons, h a (by simp)]

lemma jsTrim_eq_self {l : List Char} (h : ∀ c ∈ l, isWsChar c = false) :
    jsTrim l = l := by
  unfold jsTrim
  rw [dropWhile_all_false h, dropWhile_all_false (fun c hc => h c (List.mem_reverse.mp hc)),
    List.reverse_reverse]

lemma stripQuotes_eq_self {l : List Char} (h : ∀ c ∈ l, isQuoteChar c = false) :
    stripQuotes l = l :=
  List.filter_eq_self.mpr (fun a ha => by simp [h a ha])

lemma stripWs_eq_self {l : List Char} (h : ∀ c ∈ l, isWsChar c = false) :
    stripWs l = l :=
  List.filter_eq_self.mpr (fun a ha => by simp [h a ha])

lemma mem_formatUUID {c : Char} {h : List Char} (hc : c ∈ formatUUID h) :
    c ∈ h ∨ c = '-' := by
  simp only [formatUUID, List.mem_append, List.mem_singleton] at hc
  rcases hc with ((((((((hc | hc) | hc) | hc) | hc) | hc) | hc) | hc) | hc)
  · exact Or.inl (List.take_subset _ _ hc)
  · exact Or.inr hc
  · exact Or.inl (List.drop_subset _ _ (List.take_subset _ _ hc))
  · exact Or.inr hc
  · exact Or.inl (List.drop_subset _ _ (List.take_subset _ _ hc))
  · exact Or.inr hc
  · exact Or.inl (List.drop_subset _ _ (List.take_subset _ _ hc))
  · exact Or.inr hc
  · exact Or.inl (List.drop_subset _ _ hc)

lemma stripDashes_formatUUID {h : List Char} (hhex : ∀ c ∈ h, isHexChar c = true) :
    stripDashes (formatUUID h) = h := by
  have seg : ∀ m : List Char, m ⊆ h → stripDashes m = m := by
    intro m hm
    exact List.filter_eq_self.mpr (fun a ha => by simp [hex_not_dash (hhex a (hm ha))])
  have hdash : stripDashes ['-'] = [] := by decide
  unfold stripDashes at seg hdash ⊢
  unfold formatUUID
  simp only [List.filter_append]
  rw [seg _ (List.take_subset _ _),
    seg _ (fun a ha => List.drop_subset _ _ (List.take_subset _ _ ha)),
    seg _ (fun a ha => List.drop_subset _ _ (List.take_subset _ _ ha)),
    seg _ (fun a ha => List.drop_subset _ _ (List.take_subset _ _ ha)),
    seg _ (List.drop_subset _ _), hdash]
  simp only [List.append_nil, List.nil_append, List.append_assoc]
  have e1 : (h.drop 16).take 4 ++ h.drop 20 = h.drop 16 := by
    have e : (h.drop 16).drop 4 = h.drop 20 := by rw [List.drop_drop]
    rw [← e, List.take_append_drop]
  have e2 : (h.drop 12).take 4 ++ h.drop 16 = h.drop 12 := by
    have e : (h.drop 12).drop 4 = h.drop 16 := by rw [List.drop_drop]
    rw [← e, List.take_append_drop]
  have e3 : (h.drop 8).take 4 ++ h.drop 12 = h.drop 8 := by
    have e : (h.drop 8).drop 4 = h.drop 12 := by rw [List.drop_drop]
    rw [← e, List.take_append_drop]
  rw [e1, e2, e3, List.take_append_drop]

lemma formatUUID_length {h : List Char} (hlen : h.length = 32) :
    (formatUUID h).length = 36 := by
  simp [formatUUID, List.length_take, List.length_drop, hlen]

lemma getAt_append (A : List Char) (x : Char) (r : List Char) (i : Nat)
    (hA : A.length = i) : (A ++ x :: r)[i]? = some x := by
  subst hA
  rw [List.getElem?_append_right (Nat.le_refl _), Nat.sub_self]
  simp

lemma formatUUID_dash_positions {h : List Char} (hlen : h.length = 32) :
    (formatUUID h)[8]? = some '-' ∧ (formatUUID h)[13]? = some '-' ∧
    (formatUUID h)[18]? = some '-' ∧ (formatUUID h)[23]? = some '-' := by
  have l8 : (h.take 8).length = 8 := by simp [List.length_take, hlen]
  have l4a : ((h.drop 8).take 4).length = 4 := by
    simp [List.length_take, List.length_drop, hlen]
  have l4b : ((h.drop 12).take 4).length = 4 := by
    simp [List.length_take, List.length_drop, hlen]
  have l4c : ((h.drop 16).take 4).length = 4 := by
    simp [List.length_take, List.length_drop, hlen]
  refine ⟨?_, ?_, ?_, ?_⟩
  · have e : formatUUID h = h.take 8 ++ '-' ::
        ((h.drop 8).take 4 ++ '-' :: ((h.drop 12).take 4 ++ '-' ::
          ((h.drop 16).take 4 ++ '-' :: h.drop 20))) := by
      simp [formatUUID, List.append_assoc]
    rw [e]
    exact getAt_append _ _ _ _ l8
  · have e : formatUUID h = (h.take 8 ++ '-' :: (h.drop 8).take 4) ++ '-' ::
        ((h.drop 12).take 4 ++ '-' :: ((h.drop 16).take 4 ++ '-' :: h.drop 20)) := by
      simp [formatUUID, List.append_assoc]
    rw [e]
    refine getAt_append _ _ _ _ ?_
    simp [List.length_append, l8, l4a]
  · have e : formatUUID h = (h.take 8 ++ '-' :: ((h.drop 8).take 4 ++ '-' ::
        (h.drop 12).take 4)) ++ '-' :: ((h.drop 16).take 4 ++ '-' :: h.drop 20) := by
      simp [formatUUID, List.append_assoc]
    rw [e]
    refine getAt_append _ _ _ _ ?_
    simp [List.length_append, l8, l4a, l4b]
  · have e : formatUUID h = (h.take 8 ++ '-' :: ((h.drop 8).take 4 ++ '-' ::
        ((h.drop 12).take 4 ++ '-' :: (h.drop 16).take 4))) ++ '-' :: h.drop 20 := by
      simp [formatUUID, List.append_assoc]
    rw [e]
    refine getAt_append _ _ _ _ ?_
    simp [List.length_append, l8, l4a, l4b, l4c]

/-- Success path of `validateUUID`: a 32-hex residue passes the check and is
dash-grouped, with the residue's characters (and their case) untouched. -/
lemma validateUUID_of_valid {s : String} (h32 : (cleanHex s.data).length = 32)
    (hhex : (cleanHex s.data).all isHexChar = true) :
    validateUUID s = .ok (String.mk (formatUUID (cleanHex s.data))) := by
  have hs : s ≠ "" := by
    intro he
    subst he
    exact absurd h32 (by decide)
  unfold validateUUID
  rw [if_neg hs, if_pos (by rw [Bool.and_eq_true]; exact ⟨beq_iff_eq.mpr h32, hhex⟩)]

/-- Failure path of `validateUUID` on a nonempty input whose residue is not
32 hex characters. -/
lemma validateUUID_of_invalid {s : String} (hs : s ≠ "")
    (hbad : ¬((cleanHex s.data).length = 32 ∧ (cleanHex s.data).all isHexChar = true)) :
    validateUUID s = .error ("Invalid Notion ID format: " ++ String.mk (preClean s.data) ++
      ". Expected a 32-character hexadecimal string.") := by
  unfold validateUUID
  rw [if_neg hs, if_neg]
  intro hc
  rw [Bool.and_eq_true, beq_iff_eq] at hc
  exact hbad hc

lemma startsWithSeq_nil (l : List Char) : startsWithSeq l [] = true := by
  cases l <;> rfl

lemma startsWithSeq_self_append (b c : List Char) : startsWithSeq (b ++ c) b = true := by
  induction b with
  | nil => exact startsWithSeq_nil c
  | cons x xs ih => simp [startsWithSeq, ih]

lemma hasSeq_append_left {r b : List Char} (h : hasSeq r b = true) (a : List Char) :
    hasSeq (a ++ r) b = true := by
  induction a with
  | nil => exact h
  | cons x xs ih => simp [hasSeq, ih]

lemma hasSeq_contains (a b c : List Char) : hasSeq (a ++ (b ++ c)) b = true := by
  apply hasSeq_append_left
  cases b with
  | nil =>
    cases c with
    | nil => rfl
    | cons y ys => simp [hasSeq, startsWithSeq]
  | cons x xs =>
    have hsw := startsWithSeq_self_append (x :: xs) c
    rw [List.cons_append] at hsw ⊢
    simp [hasSeq, hsw]

/-- C1 counterexample: on an all-uppercase 32-hex input, validation succeeds
but returns the dash-grouped identifier with its case preserved, not the
lowercase canonical form the claim asserts. -/
theorem c1_counterexample :
    validateUUID "AAAAAAAAAAAAAAAAAAAAAAAAAAAAAAAA" =
      .ok "AAAAAAAA-AAAA-AAAA-AAAA-AAAAAAAAAAAA" ∧
    specCanonicalUUID "AAAAAAAAAAAAAAAAAAAAAAAAAAAAAAAA" =
      "aaaaaaaa-aaaa-aaaa-aaaa-aaaaaaaaaaaa" ∧
    ("AAAAAAAA-AAAA-AAAA-AAAA-AAAAAAAAAAAA" : String) ≠
      "aaaaaaaa-aaaa-aaaa-aaaa-aaaaaaaaaaaa" :=
  ⟨rfl, rfl, by decide⟩

/-- C1 (amended): for every identifier string whose residue after trimming and
stripping quotes, whitespace and dashes is exactly 32 hex characters (any
case, any dash placement), validation succeeds and returns that residue
dash-grouped 8-4-4-4-12 (dashes at positions 8, 13, 18, 23 of the 36-character
result), preserving the case of the hex characters rather than lowercasing. -/
theorem c1_canonicalization (s : String)
    (h32 : (cleanHex s.data).length = 32)
    (hhex : (cleanHex s.data).all isHexChar = true) :
    validateUUID s = .ok (String.mk (formatUUID (cleanHex s.data))) ∧
    (formatUUID (cleanHex s.data)).length = 36 ∧
    (formatUUID (cleanHex s.data))[8]? = some '-' ∧
    (formatUUID (cleanHex s.data))[13]? = some '-' ∧
    (formatUUID (cleanHex s.data))[18]? = some '-' ∧
    (formatUUID (cleanHex s.data))[23]? = some '-' ∧
    stripDashes (formatUUID (cleanHex s.data)) = cleanHex s.data := by
  obtain ⟨d8, d13, d18, d23⟩ := formatUUID_dash_positions h32
  exact ⟨validateUUID_of_valid h32 hhex, formatUUID_length h32, d8, d13, d18, d23,
    stripDashes_formatUUID (List.all_eq_true.mp hhex)⟩

/-- Concrete input for the C1 witness: mixed case, quotes, whitespace and no
dashes. -/
def c1Input : String := " \x22deadBEEFdeadbeefdeadbeefdeadbeef\x22 "

/-- Witness for `c1_canonicalization` at a concrete quoted mixed-case input. -/
theorem c1_witness :
    validateUUID c1Input = .ok (String.mk (formatUUID (cleanHex c1Input.data))) ∧
    (formatUUID (cleanHex c1Input.data)).length = 36 ∧
    (formatUUID (cleanHex c1Input.data))[8]? = some '-' ∧
    (formatUUID (cleanHex c1Input.data))[13]? = some '-' ∧
    (formatUUID (cleanHex c1Input.data))[18]? = some '-' ∧
    (formatUUID (cleanHex c1Input.data))[23]? = some '-' ∧
    stripDashes (formatUUID (cleanHex c1Input.data)) = cleanHex c1Input.data :=
  c1_canonicalization c1Input (by decide) (by decide)

/-- C3 counterexample: for the invalid input `"g"` (a double-quoted g), the
error message names only the stripped form `g`, not the original input: the
original three-character string does not occur in the message. -/
theorem c3_counterexample :
    validateUUID "\x22g\x22" =
      .error "Invalid Notion ID format: g. Expected a 32-character hexadecimal string." ∧
    hasSeq "Invalid Notion ID format: g. Expected a 32-character hexadecimal string.".data
      "\x22g\x22".data = false :=
  ⟨rfl, rfl⟩

/-- C3 (amended): for every input whose residue is not exactly 32 hex
characters, validation fails, `getPage` fails with the same message and issues
no request, and for nonempty input the message names the trimmed,
quote- and whitespace-stripped form of the input (dashes retained). -/
theorem c3_invalid_rejected (s : String)
    (hbad : ¬((cleanHex s.data).length = 32 ∧ (cleanHex s.data).all isHexChar = true)) :
    ∃ msg : String, validateUUID s = .error msg ∧ NotionClient.getPage s = .error msg ∧
      (s ≠ "" → msg = "Invalid Notion ID format: " ++ String.mk (preClean s.data) ++
        ". Expected a 32-character hexadecimal string." ∧
        hasSeq msg.data (preClean s.data) = true) := by
  by_cases hs : s = ""
  · subst hs
    exact ⟨"Notion ID cannot be empty", rfl, rfl, fun h => absurd rfl h⟩
  · refine ⟨_, validateUUID_of_invalid hs hbad, ?_, fun _ => ⟨rfl, ?_⟩⟩
    · unfold NotionClient.getPage
      rw [validateUUID_of_invalid hs hbad]
      rfl
    · rw [String.data_append, String.data_append]
      rw [List.append_assoc]
      exact hasSeq_contains _ _ _

/-- Witness for `c3_invalid_rejected` at the concrete invalid input `xyz`. -/
theorem c3_witness :
    ∃ msg : String, validateUUID "xyz" = .error msg ∧
      NotionClient.getPage "xyz" = .error msg ∧
      (("xyz" : String) ≠ "" → msg = "Invalid Notion ID format: " ++
        String.mk (preClean ("xyz" : String).data) ++
        ". Expected a 32-character hexadecimal string." ∧
        hasSeq msg.data (preClean ("xyz" : String).data) = true) :=
  c3_invalid_rejected "xyz" (by decide)

/-- C10: identifier validation is idempotent — if validation succeeds, the
returned canonical dashed identifier validates again to itself. -/
theorem c10_idempotent (s out : String) (h : validateUUID s = .ok out) :
    validateUUID out = .ok out := by
  by_cases hs : s = ""
  · subst hs
    simp [validateUUID] at h
  unfold validateUUID at h
  rw [if_neg hs] at h
  by_cases hc : ((cleanHex s.data).length == 32 && (cleanHex s.data).all isHexChar) = true
  · rw [if_pos hc] at h
    injection h with hout
    obtain ⟨h32b, hhex⟩ := Bool.and_eq_true_iff.mp hc
    have h32 : (cleanHex s.data).length = 32 := beq_iff_eq.mp h32b
    have hhex' : ∀ c ∈ cleanHex s.data, isHexChar c = true := by
      intro c hcm
      exact List.all_eq_true.mp hhex c hcm
    have hform : ∀ c ∈ formatUUID (cleanHex s.data), isHexChar c = true ∨ c = '-' :=
      fun c hcm => (mem_formatUUID hcm).imp (fun hm => hhex' c hm) id
    have hnw : ∀ c ∈ formatUUID (cleanHex s.data), isWsChar c = false := by
      intro c hcm
      rcases hform c hcm with hh | rfl
      · exact hex_not_ws hh
      · exact dash_not_ws
    have hnq : ∀ c ∈ formatUUID (cleanHex s.data), isQuoteChar c = false := by
      intro c hcm
      rcases hform c hcm with hh | rfl
      · exact hex_not_quote hh
      · exact dash_not_quote
    have hdata : out.data = formatUUID (cleanHex s.data) := by
      rw [← hout]
    have hne2 : out ≠ "" := by
      intro he
      have hd : out.data = [] := by rw [he]
      rw [hdata] at hd
      have hl := congrArg List.length hd
      rw [formatUUID_length h32] at hl
      exact absurd hl (by decide)
    have hpre : preClean out.data = formatUUID (cleanHex s.data) := by
      unfold preClean
      rw [hdata, jsTrim_eq_self hnw, stripQuotes_eq_self hnq, stripWs_eq_self hnw]
    have hclean : cleanHex out.data = cleanHex s.data := by
      show stripDashes (preClean out.data) = cleanHex s.data
      rw [hpre, stripDashes_formatUUID hhex']
    unfold validateUUID
    rw [if_neg hne2, if_pos (by rw [hclean]; exact hc), hclean]
    exact congrArg Except.ok hout
  · rw [if_neg hc] at h
    exact absurd h (by simp)

/-- Witness for `c10_idempotent` at a concrete dashless hex input. -/
theorem c10_witness :
    validateUUID "deadbeefdeadbeefdeadbeefdeadbeef" =
      .ok "deadbeef-dead-beef-dead-beefdeadbeef" ∧
    validateUUID "deadbeef-dead-beef-dead-beefdeadbeef" =
      .ok "deadbeef-dead-beef-dead-beefdeadbeef" :=
  ⟨rfl, c10_idempotent "deadbeefdeadbeefdeadbeefdeadbeef" _ rfl⟩


/-!
Lookup lemmas for the JavaScript object model.
-/

lemma getProp_setProp_same (props : List (String × Json)) (k : String) (v : Json) :
    getProp (setProp props k v) k = some v := by
  induction props with
  | nil => simp [setProp, getProp]
  | cons kv rest ih =>
    obtain ⟨ka, va⟩ := kv
    by_cases hka : ka = k
    · simp [setProp, hka, getProp]
    · simp [setProp, hka, getProp, ih]

lemma getProp_setProp_other (props : List (String × Json)) (k : String) (v : Json)
    (k₂ : String) (hne : k₂ ≠ k) :
    getProp (setProp props k v) k₂ = getProp props k₂ := by
  induction props with
  | nil =>
    have h2 : ¬(k = k₂) := fun h => hne h.symm
    simp [setProp, getProp, h2]
  | cons kv rest ih =>
    obtain ⟨ka, va⟩ := kv
    by_cases hka : ka = k
    · subst hka
      have h2 : ¬(ka = k₂) := fun h => hne h.symm
      simp [setProp, getProp, h2]
    · simp [setProp, hka, getProp, ih]

/-- C4 counterexample: with a database parent, an empty title and omitted
properties, no `Name` property is synthesized — the empty title is falsy and
the guard `title && !pageProperties['Name']` fails — contradicting the claim
that synthesis happens if and only if no `Name` key is present. -/
theorem c4_counterexample :
    createPageProperties .database_id "" none = [] ∧
    getProp (createPageProperties .database_id "" none) "Name" = none :=
  ⟨rfl, rfl⟩

/-- C4 (amended): for a database parent the caller's properties (or the empty
mapping) are used; a `Name` title property is synthesized from `title` exactly
when `title` is nonempty and the `Name` entry is absent or falsy; entries
under other keys are always preserved, and when the caller's `Name` entry is
truthy the whole mapping is passed through unchanged. -/
theorem c4_create_page_name (title : String) (properties : Option (List (String × Json))) :
    (getProp (createPageProperties .database_id title properties) "Name" =
      if title != "" && !truthyOpt (getProp (properties.getD []) "Name")
      then some (Json.obj [("title", Json.arr [textRichItem title])])
      else getProp (properties.getD []) "Name") ∧
    (∀ k, k ≠ "Name" →
      getProp (createPageProperties .database_id title properties) k =
        getProp (properties.getD []) k) ∧
    (truthyOpt (getProp (properties.getD []) "Name") = true →
      createPageProperties .database_id title properties = properties.getD []) := by
  have hdb : createPageProperties .database_id title properties =
      (if title != "" && !truthyOpt (getProp (properties.getD []) "Name")
       then setProp (properties.getD []) "Name"
         (Json.obj [("title", Json.arr [textRichItem title])])
       else properties.getD []) := rfl
  rw [hdb]
  by_cases hcond : (title != "" && !truthyOpt (getProp (properties.getD []) "Name")) = true
  · rw [if_pos hcond, if_pos hcond]
    refine ⟨getProp_setProp_same _ _ _, fun k hk => getProp_setProp_other _ _ _ _ hk, ?_⟩
    intro htr
    obtain ⟨-, hnot⟩ := Bool.and_eq_true_iff.mp hcond
    rw [htr] at hnot
    exact absurd hnot (by decide)
  · rw [if_neg hcond, if_neg hcond]
    exact ⟨rfl, fun k hk => rfl, fun _ => rfl⟩

/-- Witness for `c4_create_page_name`: a nonempty title with no properties
synthesizes `Name`; a caller-supplied truthy `Name` mapping passes through
unchanged. -/
theorem c4_witness :
    getProp (createPageProperties .database_id "Foo" none) "Name" =
      some (Json.obj [("title", Json.arr [textRichItem "Foo"])]) ∧
    createPageProperties .database_id "Bar"
        (some [("Name", Json.str "custom"), ("X", Json.num 1)]) =
      [("Name", Json.str "custom"), ("X", Json.num 1)] := by
  constructor
  · have h := (c4_create_page_name "Foo" none).1
    rw [h]
    rfl
  · exact (c4_create_page_name "Bar"
      (some [("Name", Json.str "custom"), ("X", Json.num 1)])).2.2 (by decide)

/-- C5 counterexample: `getDatabase` performs no identifier validation — with
the invalid identifier `zz` (which `validateUUID` rejects) it still builds and
dispatches the request, contradicting the claim that every identifier-taking
operation validates before network dispatch. -/
theorem c5_counterexample :
    NotionClient.getDatabase "zz" =
      .ok { method := "GET", path := "/v1/databases/zz", body := none } ∧
    validateUUID "zz" =
      .error "Invalid Notion ID format: zz. Expected a 32-character hexadecimal string." :=
  ⟨rfl, rfl⟩

/-- C5 (amended): only `getPage`, `createPage`, `updatePage` and
`getBlockChildren` validate their identifier before dispatch — an invalid
identifier makes them fail with the validation error and no request. The
remaining identifier-taking operations (`getDatabase`, `createDatabase`,
`queryDatabase`, `getBlock`, `appendBlockChildren`, `getComments`,
`createComment`) dispatch a request for every identifier, valid or not. -/
theorem c5_validation_coverage (id e : String) (hv : validateUUID id = .error e)
    (params : Json) (gbcParams : Option Json) (pt : ParentType)
    (props : List (String × Json)) (children : Option (List Json))
    (icon cover : Option Json) (qdParams : Option Json) (cs : List Json)
    (sc : Option String) (ps : Option Nat) (dtitle : List Json)
    (dprops : List (String × Json)) (cparent : Json) (rt : List Json)
    (did : Option String) :
    NotionClient.getPage id = .error e ∧
    NotionClient.updatePage id params = .error e ∧
    NotionClient.getBlockChildren id gbcParams = .error e ∧
    NotionClient.createPage pt id props children icon cover = .error e ∧
    (∃ r, NotionClient.getDatabase id = .ok r) ∧
    (∃ r, NotionClient.createDatabase id dtitle dprops = .ok r) ∧
    (∃ r, NotionClient.queryDatabase id qdParams = .ok r) ∧
    (∃ r, NotionClient.getBlock id = .ok r) ∧
    (∃ r, NotionClient.appendBlockChildren id cs = .ok r) ∧
    (∃ r, NotionClient.getComments id sc ps = .ok r) ∧
    (∃ r, NotionClient.createComment cparent rt did = .ok r) := by
  refine ⟨?_, ?_, ?_, ?_, ⟨_, rfl⟩, ⟨_, rfl⟩, ⟨_, rfl⟩, ⟨_, rfl⟩, ⟨_, rfl⟩, ⟨_, rfl⟩, ⟨_, rfl⟩⟩
  · unfold NotionClient.getPage
    rw [hv]
    rfl
  · unfold NotionClient.updatePage
    rw [hv]
    rfl
  · unfold NotionClient.getBlockChildren
    rw [hv]
    rfl
  · unfold NotionClient.createPage
    rw [hv]
    rfl

/-- Witness for `c5_validation_coverage` at the concrete invalid identifier
`zz` with trivial parameters. -/
theorem c5_witness :
    NotionClient.getPage "zz" =
      .error "Invalid Notion ID format: zz. Expected a 32-character hexadecimal string." ∧
    NotionClient.updatePage "zz" Json.null =
      .error "Invalid Notion ID format: zz. Expected a 32-character hexadecimal string." ∧
    NotionClient.getBlockChildren "zz" none =
      .error "Invalid Notion ID format: zz. Expected a 32-character hexadecimal string." ∧
    NotionClient.createPage .page_id "zz" [] none none none =
      .error "Invalid Notion ID format: zz. Expected a 32-character hexadecimal string." ∧
    (∃ r, NotionClient.getDatabase "zz" = .ok r) ∧
    (∃ r, NotionClient.createDatabase "zz" [] [] = .ok r) ∧
    (∃ r, NotionClient.queryDatabase "zz" none = .ok r) ∧
    (∃ r, NotionClient.getBlock "zz" = .ok r) ∧
    (∃ r, NotionClient.appendBlockChildren "zz" [] = .ok r) ∧
    (∃ r, NotionClient.getComments "zz" none none = .ok r) ∧
    (∃ r, NotionClient.createComment Json.null [] none = .ok r) :=
  c5_validation_coverage "zz" _ rfl Json.null none .page_id [] none none none none []
    none none [] [] Json.null [] none

/-- JSON object field access used to state structural facts about bodies. -/
def jsonGetField : Json → String → Option Json
  | .obj fs, k => getProp fs k
  | _, _ => none

/-- C2: whenever the client call behind a tool fails with any message, every
tool handler returns normally with a single text content item of the form
`Error <action>: <message>`. Totality of the handler functions models the
absence of a thrown error at the tool boundary. -/
theorem c2_errors_as_content (msg : String) :
    (getCurrentUserTool (.error msg)).content =
      [{ type := "text", text := "Error fetching current user: " ++ msg }] ∧
    (listUsersTool (.error msg)).content =
      [{ type := "text", text := "Error listing users: " ++ msg }] ∧
    (searchTool (.error msg)).content =
      [{ type := "text", text := "Error searching Notion: " ++ msg }] ∧
    (getPageTool (.error msg)).content =
      [{ type := "text", text := "Error retrieving page: " ++ msg }] ∧
    (createPageTool (.error msg)).content =
      [{ type := "text", text := "Error creating page: " ++ msg }] ∧
    (getDatabaseTool (.error msg)).content =
      [{ type := "text", text := "Error retrieving database: " ++ msg }] ∧
    (createDatabaseTool (.error msg)).content =
      [{ type := "text", text := "Error creating database: " ++ msg }] ∧
    (queryDatabaseTool (.error msg)).content =
      [{ type := "text", text := "Error querying database: " ++ msg }] ∧
    (getBlockChildrenTool (.error msg)).content =
      [{ type := "text", text := "Error retrieving block children: " ++ msg }] ∧
    (appendBlockChildrenTool (.error msg)).content =
      [{ type := "text", text := "Error appending blocks: " ++ msg }] ∧
    (getCommentsTool (.error msg)).content =
      [{ type := "text", text := "Error retrieving comments: " ++ msg }] ∧
    (createCommentTool (.error msg)).content =
      [{ type := "text", text := "Error creating comment: " ++ msg }] ∧
    (getAllPagesTool (.error msg)).content =
      [{ type := "text", text := "Error retrieving pages: " ++ msg }] :=
  ⟨rfl, rfl, rfl, rfl, rfl, rfl, rfl, rfl, rfl, rfl, rfl, rfl, rfl⟩

/-- C6: `get-all-pages` with no arguments searches with the object filter
fixed to `page`, page size 100, no text query, no sort and no cursor, and its
success text is `Found N pages.` plus a more-pages note ahead of the
serialized payload. -/
theorem c6_get_all_pages :
    getAllPagesSearchParams none none =
      { query := none,
        filter := some { property := "object", value := "page" },
        sort := none,
        start_cursor := none,
        page_size := some 100 } ∧
    searchParamsToJson (getAllPagesSearchParams none none) =
      Json.obj [("filter", Json.obj [("property", Json.str "object"),
        ("value", Json.str "page")]), ("page_size", Json.num 100)] ∧
    (∀ r : SearchResults, (getAllPagesTool (.ok r)).content =
      [{ type := "text",
         text := "Found " ++ toString r.results.length ++ " pages. " ++
           (if r.has_more then "More pages available." else "No more pages available.") ++
           "\n\n" ++ serializeSearchResults r }]) :=
  ⟨rfl, rfl, fun _ => rfl⟩

/-- C7: for every `append-block-children` invocation, the request body holds
exactly one child block, of paragraph type, whose rich text is the single
text item carrying the given content verbatim. -/
theorem c7_append_one_paragraph (blockId content : String) :
    appendBlockChildrenToolRequest blockId content =
      .ok { method := "PATCH", path := "/v1/blocks/" ++ blockId ++ "/children",
            body := some (Json.obj [("children", Json.arr [paragraphBlock content])]) } ∧
    (appendBlockChildrenArgs content).length = 1 ∧
    jsonGetField (paragraphBlock content) "type" = some (Json.str "paragraph") ∧
    (jsonGetField (paragraphBlock content) "paragraph").bind
      (fun p => jsonGetField p "rich_text") = some (Json.arr [textRichItem content]) ∧
    textRichItem content =
      Json.obj [("type", Json.str "text"),
        ("text", Json.obj [("content", Json.str content)])] :=
  ⟨rfl, rfl, rfl, rfl, rfl⟩

lemma mem_ite_sing (c : Prop) [Decidable c] (a b : String) :
    (a ∈ if c then [b] else []) ↔ c ∧ a = b := by
  by_cases h : c
  · simp [h]
  · simp [h]

/-- C8: a tool mapped to `false` in the enablement configuration is absent
from the registered tool list; a tool that is absent from the configuration
or mapped to `true` is registered. -/
theorem c8_enablement (cfg : String → Option Bool) (name : String)
    (hmem : name ∈ notionToolNames) :
    (cfg name = some false → name ∉ registerNotionTools cfg) ∧
    (cfg name = none ∨ cfg name = some true → name ∈ registerNotionTools cfg) := by
  simp only [notionToolNames, List.mem_cons, List.not_mem_nil, or_false] at hmem
  rcases hmem with rfl | rfl | rfl | rfl | rfl | rfl | rfl | rfl | rfl | rfl | rfl | rfl | rfl <;>
    exact ⟨fun h => by simp [registerNotionTools, mem_ite_sing, h],
      fun h => by rcases h with h | h <;> simp [registerNotionTools, mem_ite_sing, h]⟩

/-- A sample static enablement configuration disabling only `search`. -/
def c8ExampleConfig : String → Option Bool :=
  fun n => if n = "search" then some false else none

/-- Witness for `c8_enablement`: with `search` disabled, `search` is absent
from the registered list while `get-page` (absent from the configuration) is
present. -/
theorem c8_witness :
    "search" ∉ registerNotionTools c8ExampleConfig ∧
    "get-page" ∈ registerNotionTools c8ExampleConfig :=
  ⟨(c8_enablement c8ExampleConfig "search" (by decide)).1 rfl,
   (c8_enablement c8ExampleConfig "get-page" (by decide)).2 (Or.inl rfl)⟩

/-- C9: when the search tool is given a sort field, the request's sort
direction is the given `sortDirection` when supplied and `descending`
otherwise. -/
theorem c9_sort_direction (query filter : Option String) (s : String)
    (sortDirection : Option String) (pageSize : Option Nat) (startCursor : Option String)
    (hs : s ≠ "") (hd : ∀ d, sortDirection = some d → d ≠ "") :
    (buildSearchParams query filter (some s) sortDirection pageSize startCursor).sort =
      some { timestamp := s, direction := sortDirection.getD "descending" } := by
  cases sortDirection with
  | none =>
    rw [show (buildSearchParams query filter (some s) none pageSize startCursor).sort =
        (if s != "" then some { timestamp := s, direction := "descending" } else none)
      from rfl, if_pos (by simp [hs])]
    rfl
  | some d =>
    have hdne : d ≠ "" := hd d rfl
    rw [show (buildSearchParams query filter (some s) (some d) pageSize startCursor).sort =
        (if s != "" then
          some { timestamp := s, direction := if d != "" then d else "descending" }
         else none)
      from rfl, if_pos (by simp [hs]), if_pos (by simp [hdne])]
    rfl

/-- Witness for `c9_sort_direction`: default direction when unspecified,
supplied direction otherwise. -/
theorem c9_witness :
    (buildSearchParams none none (some "last_edited_time") none none none).sort =
      some { timestamp := "last_edited_time", direction := "descending" } ∧
    (buildSearchParams none none (some "last_edited_time") (some "ascending") none none).sort =
      some { timestamp := "last_edited_time", direction := "ascending" } :=
  ⟨c9_sort_direction none none _ none none none (by decide) (fun d h => nomatch h),
   c9_sort_direction none none _ (some "ascending") none none (by decide)
     (fun d h => by cases h; decide)⟩
